import Mathlib

/-!
Shallow embedding of the voting service of the `votingsystem` repository
(`election/models.py`, `election/services.py`, `election/views.py`).

Datetimes are modelled as integers (only their ordering matters to the code).
The relational store is modelled as explicit lists of persisted records,
threaded through each operation; `timezone.now()` becomes an explicit `now`
argument; Django `ValidationError` becomes an error value carrying the
message string, and a raising call returns `Except.error`.
-/

/-- Django `ValidationError`: the single error kind, carrying a message. -/
structure ValidationError where
  msg : String
  deriving Repr, DecidableEq

/-- `Election` model: the fields the voting service reads
(`models.py` lines 34-39; image/description et al. are irrelevant to the
claims but title is kept because it appears in error messages). -/
structure Election where
  id : Nat
  title : String
  start_date : Int
  end_date : Int
  max_candidates_choice : Nat
  deriving Repr, DecidableEq

/-- `Voter` model (`models.py` lines 279-281): links a user to an election,
with the `has_voted` flag (default false). -/
structure Voter where
  id : Nat
  user_id : Nat
  election_id : Nat
  has_voted : Bool
  deriving Repr, DecidableEq

/-- `Vote` model (`models.py` lines 329-331): election link, chosen
candidates (by primary key), and the creation timestamp (`auto_now_add`). -/
structure Vote where
  id : Nat
  election_id : Nat
  chosen_candidates : List Nat
  timestamp : Int
  deriving Repr, DecidableEq

/-- The persistent store: the tables the voting service touches, plus the
next fresh primary keys. Candidates are carried by primary key (the `vote`
view filters `Candidate.objects` by pk). -/
structure Store where
  voters : List Voter
  votes : List Vote
  candidates : List Nat
  nextVoteId : Nat
  nextVoterId : Nat
  deriving Repr, DecidableEq

/-- `Vote.chosen_candidate_count` (`models.py` lines 345-354). -/
def Vote.chosen_candidate_count (v : Vote) : Nat :=
  v.chosen_candidates.length

/-- Message of `models.py` line 367. -/
def tooManyCandidatesError (e : Election) : ValidationError :=
  ⟨"You can only choose up to " ++ toString e.max_candidates_choice ++ " candidates"⟩

/-- Message of `models.py` line 369. -/
def electionEndedError (e : Election) : ValidationError :=
  ⟨"The " ++ e.title ++ " has already ended"⟩

/-- Message of `services.py` line 104. -/
def alreadySignedUpError (e : Election) : ValidationError :=
  ⟨"You have already signed up for " ++ e.title⟩

/-- Message of `models.py` line 304. -/
def electionStartedError (e : Election) : ValidationError :=
  ⟨"You can\x27t sign up for " ++ e.title ++ ", the election has already started"⟩

/-- `Vote.clean` (`models.py` lines 356-369): rejects a vote whose chosen
candidate count exceeds the election maximum, otherwise a vote whose
timestamp is at or after the election end date. -/
def Vote.clean (election : Election) (v : Vote) : Except ValidationError Unit :=
  if election.max_candidates_choice < v.chosen_candidate_count then
    .error (tooManyCandidatesError election)
  else if v.timestamp ≥ election.end_date then
    .error (electionEndedError election)
  else
    .ok ()

/-- `Voter.clean` (`models.py` lines 294-304): rejects the voter when the
current time is strictly after the election start date. -/
def Voter.clean (election : Election) (now : Int) (_v : Voter) : Except ValidationError Unit :=
  if now > election.start_date then
    .error (electionStartedError election)
  else
    .ok ()

/-- `Election.has_finished` (`models.py` lines 111-120):
`self.end_date <= timezone.now()`. -/
def Election.has_finished (e : Election) (now : Int) : Bool :=
  decide (e.end_date ≤ now)

/-- `Vote.objects.create`: inserts the row and hands out the next pk. -/
def Store.insertVote (s : Store) (v : Vote) : Store :=
  { s with votes := s.votes ++ [v], nextVoteId := s.nextVoteId + 1 }

/-- Saving an already-inserted `Vote` row (`vote.save()`, and the effect of
`chosen_candidates.set`, which persists immediately in Django). -/
def Store.updateVote (s : Store) (v : Vote) : Store :=
  { s with votes := s.votes.map fun w => if w.id == v.id then v else w }

/-- `vote.delete()`: removes the row with the given pk. -/
def Store.deleteVote (s : Store) (i : Nat) : Store :=
  { s with votes := s.votes.filter fun w => w.id != i }

/-- `voter.save()` on an existing row: replaces the row with the same pk. -/
def Store.saveVoter (s : Store) (v : Voter) : Store :=
  { s with voters := s.voters.map fun w => if w.id == v.id then v else w }

/-- `create_vote` (`services.py` lines 7-50): creates the Vote row, sets the
chosen candidates, runs `full_clean`; on validation failure deletes the row
and re-raises; on success saves the vote, flips `voter.has_voted` to true
and saves the voter. -/
def create_vote (election : Election) (selected_candidates : List Nat)
    (voter : Voter) (now : Int) (s : Store) :
    Except ValidationError (Vote × Voter) × Store :=
  let vote : Vote :=
    { id := s.nextVoteId, election_id := election.id,
      chosen_candidates := [], timestamp := now }
  let s1 := s.insertVote vote
  let vote : Vote := { vote with chosen_candidates := selected_candidates }
  let s2 := s1.updateVote vote
  match Vote.clean election vote with
  | .error e => (.error e, s2.deleteVote vote.id)
  | .ok _ =>
      let s3 := s2.updateVote vote
      let voter : Voter := { voter with has_voted := true }
      let s4 := s3.saveVoter voter
      (.ok (vote, voter), s4)

/-- `is_voter` (`services.py` lines 53-74): the queryset of Voter rows
matching (election, user). -/
def is_voter (election : Election) (userId : Nat) (s : Store) : List Voter :=
  s.voters.filter fun v => v.election_id == election.id && v.user_id == userId

/-- `create_voter` (`services.py` lines 77-111): raises when a Voter already
exists for (election, user); otherwise `Voter.objects.create` inserts the
row, then `full_clean` runs; a validation failure is re-raised with the row
left inserted (the source has no compensating delete here). -/
def create_voter (election : Election) (userId : Nat) (now : Int) (s : Store) :
    Except ValidationError Voter × Store :=
  if !(is_voter election userId s).isEmpty then
    (.error (alreadySignedUpError election), s)
  else
    let voter : Voter :=
      { id := s.nextVoterId, user_id := userId,
        election_id := election.id, has_voted := false }
    let s1 : Store :=
      { s with voters := s.voters ++ [voter], nextVoterId := s.nextVoterId + 1 }
    match Voter.clean election now voter with
    | .error e => (.error e, s1)
    | .ok _ => (.ok voter, s1)

/-- Modelled from the spec: `get_active_elections` is listed as a Voting
Service operation but is not present under `src/`; per the spec it returns
the elections whose start time ≤ now < end time. -/
def get_active_elections (elections : List Election) (now : Int) : List Election :=
  elections.filter fun e => decide (e.start_date ≤ now) && decide (now < e.end_date)

/-- Modelled from the spec: `get_finished_elections` is listed as a Voting
Service operation but is not present under `src/`; per the spec it returns
the elections whose end time ≤ now, i.e. those for which the source method
`Election.has_finished` answers true. -/
def get_finished_elections (elections : List Election) (now : Int) : List Election :=
  elections.filter fun e => e.has_finished now

/-- Outcomes of the `vote` request handler, one per exit path. -/
inductive VoteOutcome where
  | notVoter : VoteOutcome
  | alreadyVoted : VoteOutcome
  | noCandidatesSelected : VoteOutcome
  | candidateDoesNotExist : VoteOutcome
  | voteFailed : ValidationError → VoteOutcome
  | voteCast : VoteOutcome
  deriving Repr, DecidableEq

/-- The `vote` request handler (`views.py` lines 348-405): looks up the
Voter, rejects if `has_voted` is already true, rejects an empty candidate
selection, rejects unknown candidate ids, then calls `create_vote` and
reports its validation error or success. -/
def vote (election : Election) (userId : Nat) (selected_candidates_ids : List Nat)
    (now : Int) (s : Store) : VoteOutcome × Store :=
  match s.voters.find? (fun v => v.election_id == election.id && v.user_id == userId) with
  | none => (.notVoter, s)
  | some voter =>
    if voter.has_voted then
      (.alreadyVoted, s)
    else if selected_candidates_ids.isEmpty then
      (.noCandidatesSelected, s)
    else
      let selected := s.candidates.filter fun c => selected_candidates_ids.contains c
      if selected_candidates_ids.length != selected.length then
        (.candidateDoesNotExist, s)
      else
        match create_vote election selected voter now s with
        | (.error e, s2) => (.voteFailed e, s2)
        | (.ok _, s2) => (.voteCast, s2)

/-- The store with no rows, used for concrete evaluations. -/
def emptyStore : Store :=
  { voters := [], votes := [], candidates := [], nextVoteId := 0, nextVoterId := 0 }

/-! ### Helper lemmas about the store operations -/

/-- The Vote row that `create_vote` has inserted once it has set the chosen
candidates (`services.py` lines 37-38). -/
def createdVote (election : Election) (selected_candidates : List Nat)
    (now : Int) (s : Store) : Vote :=
  { id := s.nextVoteId, election_id := election.id,
    chosen_candidates := selected_candidates, timestamp := now }

theorem map_update_id_of_ne (l : List Vote) (i : Nat) (v : Vote)
    (h : ∀ w ∈ l, w.id ≠ i) :
    (l.map fun w => if w.id == i then v else w) = l := by
  induction l with
  | nil => rfl
  | cons a t ih =>
    have ha : a.id ≠ i := h a (List.mem_cons_self a t)
    simp only [List.map_cons, List.cons.injEq]
    exact ⟨by simp [ha], ih fun w hw => h w (List.mem_cons_of_mem _ hw)⟩

theorem map_update_eq_id_of_ne (l : List Vote) (i : Nat) (v : Vote)
    (h : ∀ w ∈ l, w.id ≠ i) :
    (l.map fun w => if w.id = i then v else w) = l := by
  induction l with
  | nil => rfl
  | cons a t ih =>
    have ha : a.id ≠ i := h a (List.mem_cons_self a t)
    simp only [List.map_cons, List.cons.injEq]
    exact ⟨by simp [ha], ih fun w hw => h w (List.mem_cons_of_mem _ hw)⟩

theorem filter_id_ne_of_ne (l : List Vote) (i : Nat)
    (h : ∀ w ∈ l, w.id ≠ i) :
    (l.filter fun w => w.id != i) = l := by
  induction l with
  | nil => rfl
  | cons a t ih =>
    have ha : a.id ≠ i := h a (List.mem_cons_self a t)
    simp only [List.filter_cons]
    simp only [bne_iff_ne, ne_eq, ha, not_false_eq_true, if_true]
    rw [ih fun w hw => h w (List.mem_cons_of_mem _ hw)]

/-- Error path of `create_vote`: when `full_clean` fails, the error is
re-raised and the store is exactly the initial one (the inserted Vote row
has been deleted again; only the consumed pk remains). -/
theorem create_vote_clean_error (election : Election) (c : List Nat) (voter : Voter)
    (now : Int) (s : Store) (e : ValidationError)
    (hfresh : ∀ w ∈ s.votes, w.id ≠ s.nextVoteId)
    (hclean : Vote.clean election (createdVote election c now s) = .error e) :
    create_vote election c voter now s =
      (.error e, { s with nextVoteId := s.nextVoteId + 1 }) := by
  simp only [createdVote] at hclean
  simp only [create_vote, Store.insertVote, Store.updateVote, Store.deleteVote, hclean]
  simp only [List.map_append, List.filter_append]
  rw [map_update_id_of_ne s.votes s.nextVoteId _ hfresh,
      filter_id_ne_of_ne s.votes s.nextVoteId hfresh]
  simp

/-- Success path of `create_vote`: when `full_clean` passes, the Vote row is
persisted, the voter is returned with `has_voted` flipped to true and its
row saved. -/
theorem create_vote_clean_ok (election : Election) (c : List Nat) (voter : Voter)
    (now : Int) (s : Store)
    (hfresh : ∀ w ∈ s.votes, w.id ≠ s.nextVoteId)
    (hclean : Vote.clean election (createdVote election c now s) = .ok ()) :
    create_vote election c voter now s =
      (.ok (createdVote election c now s, { voter with has_voted := true }),
       { s with votes := s.votes ++ [createdVote election c now s],
                nextVoteId := s.nextVoteId + 1,
                voters := s.voters.map fun w =>
                  if w.id == voter.id then { voter with has_voted := true } else w }) := by
  simp only [createdVote] at hclean ⊢
  simp only [create_vote, Store.insertVote, Store.updateVote, Store.saveVoter, hclean]
  simp only [List.map_append]
  rw [map_update_id_of_ne s.votes s.nextVoteId _ hfresh]
  simp
  exact map_update_eq_id_of_ne s.votes s.nextVoteId _ hfresh

/-! ### Claims -/

/-- C2: for every election, chosen-candidate list whose length exceeds
`max_candidates_choice`, and voter with `has_voted = false`, `create_vote`
raises the too-many-candidates ValidationError, the Vote table is unchanged
afterward (no Vote row persists) and the Voter table is unchanged, so the
voter still has `has_voted = false`. -/
theorem c2_create_vote_too_many_candidates
    (election : Election) (c : List Nat) (voter : Voter) (now : Int) (s : Store)
    (hfresh : ∀ w ∈ s.votes, w.id ≠ s.nextVoteId)
    (hover : election.max_candidates_choice < c.length)
    (hv : voter.has_voted = false) :
    (create_vote election c voter now s).fst = .error (tooManyCandidatesError election) ∧
    (create_vote election c voter now s).snd.votes = s.votes ∧
    (create_vote election c voter now s).snd.voters = s.voters := by
  have hclean : Vote.clean election (createdVote election c now s) =
      .error (tooManyCandidatesError election) := by
    simp [Vote.clean, createdVote, Vote.chosen_candidate_count, hover]
  rw [create_vote_clean_error election c voter now s _ hfresh hclean]
  exact ⟨rfl, rfl, rfl⟩

/-- Witness for C2 at a concrete input: election with maximum 1, two chosen
candidates. -/
theorem c2_create_vote_too_many_candidates_witness :
    (create_vote ⟨0, "E", 0, 10, 1⟩ [5, 6] ⟨0, 7, 0, false⟩ 3 emptyStore).fst =
      .error (tooManyCandidatesError ⟨0, "E", 0, 10, 1⟩) ∧
    (create_vote ⟨0, "E", 0, 10, 1⟩ [5, 6] ⟨0, 7, 0, false⟩ 3 emptyStore).snd.votes =
      emptyStore.votes ∧
    (create_vote ⟨0, "E", 0, 10, 1⟩ [5, 6] ⟨0, 7, 0, false⟩ 3 emptyStore).snd.voters =
      emptyStore.voters :=
  c2_create_vote_too_many_candidates ⟨0, "E", 0, 10, 1⟩ [5, 6] ⟨0, 7, 0, false⟩ 3 emptyStore
    (by simp [emptyStore]) (by decide) rfl

/-- C3: for every election, chosen candidates and voter, if the new vote
creation timestamp (`now`, via `auto_now_add`) is at or after `end_date`
then `create_vote` raises a ValidationError (the too-many-candidates error
when the count also overflows, per the `Vote.clean` branch order, otherwise
the already-ended error) and the Vote table is unchanged afterward. -/
theorem c3_create_vote_after_end
    (election : Election) (c : List Nat) (voter : Voter) (now : Int) (s : Store)
    (hfresh : ∀ w ∈ s.votes, w.id ≠ s.nextVoteId)
    (hend : now ≥ election.end_date) :
    (create_vote election c voter now s).fst =
      .error (if election.max_candidates_choice < c.length then
                tooManyCandidatesError election
              else electionEndedError election) ∧
    (create_vote election c voter now s).snd.votes = s.votes := by
  have hclean : Vote.clean election (createdVote election c now s) =
      .error (if election.max_candidates_choice < c.length then
                tooManyCandidatesError election
              else electionEndedError election) := by
    by_cases hc : election.max_candidates_choice < c.length
    · simp [Vote.clean, createdVote, Vote.chosen_candidate_count, hc]
    · simp [Vote.clean, createdVote, Vote.chosen_candidate_count, hc, hend]
  rw [create_vote_clean_error election c voter now s _ hfresh hclean]
  exact ⟨rfl, rfl⟩

/-- Witness for C3 at a concrete input: one chosen candidate (within the
limit), cast at time 12 against an election ending at 10. -/
theorem c3_create_vote_after_end_witness :
    (create_vote ⟨0, "E", 0, 10, 1⟩ [5] ⟨0, 7, 0, false⟩ 12 emptyStore).fst =
      .error (if (⟨0, "E", 0, 10, 1⟩ : Election).max_candidates_choice < [5].length then
                tooManyCandidatesError ⟨0, "E", 0, 10, 1⟩
              else electionEndedError ⟨0, "E", 0, 10, 1⟩) ∧
    (create_vote ⟨0, "E", 0, 10, 1⟩ [5] ⟨0, 7, 0, false⟩ 12 emptyStore).snd.votes =
      emptyStore.votes :=
  c3_create_vote_after_end ⟨0, "E", 0, 10, 1⟩ [5] ⟨0, 7, 0, false⟩ 12 emptyStore
    (by simp [emptyStore]) (by decide)

/-- C4: success scenario: election with `max_candidates_choice = 1` and
`end_date` in the future, registered voter with `has_voted = false`:
`create_vote` with the single candidate `c1` succeeds, the returned Vote
references exactly `c1` and is persisted in the Vote table, and the voter
row is persisted with `has_voted = true`. -/
theorem c4_create_vote_success
    (election : Election) (c1 : Nat) (voter : Voter) (now : Int) (s : Store)
    (hfresh : ∀ w ∈ s.votes, w.id ≠ s.nextVoteId)
    (hmax : election.max_candidates_choice = 1)
    (hend : now < election.end_date)
    (hv : voter.has_voted = false)
    (hmem : voter ∈ s.voters) :
    (create_vote election [c1] voter now s).fst =
      .ok (createdVote election [c1] now s, { voter with has_voted := true }) ∧
    (createdVote election [c1] now s).chosen_candidates = [c1] ∧
    createdVote election [c1] now s ∈ (create_vote election [c1] voter now s).snd.votes ∧
    { voter with has_voted := true } ∈ (create_vote election [c1] voter now s).snd.voters := by
  have hclean : Vote.clean election (createdVote election [c1] now s) = .ok () := by
    simp [Vote.clean, createdVote, Vote.chosen_candidate_count, hmax, not_le.mpr hend]
  rw [create_vote_clean_ok election [c1] voter now s hfresh hclean]
  refine ⟨rfl, rfl, by simp, ?_⟩
  exact List.mem_map.mpr ⟨voter, hmem, by simp⟩

/-- Witness for C4 at a concrete input. -/
theorem c4_create_vote_success_witness :
    (create_vote ⟨0, "E", 0, 10, 1⟩ [5] ⟨0, 7, 0, false⟩ 3
        { emptyStore with voters := [⟨0, 7, 0, false⟩], candidates := [5] }).fst =
      .ok (createdVote ⟨0, "E", 0, 10, 1⟩ [5] 3
             { emptyStore with voters := [⟨0, 7, 0, false⟩], candidates := [5] },
           ⟨0, 7, 0, true⟩) ∧
    (createdVote ⟨0, "E", 0, 10, 1⟩ [5] 3
        { emptyStore with voters := [⟨0, 7, 0, false⟩], candidates := [5] }).chosen_candidates =
      [5] ∧
    createdVote ⟨0, "E", 0, 10, 1⟩ [5] 3
        { emptyStore with voters := [⟨0, 7, 0, false⟩], candidates := [5] } ∈
      (create_vote ⟨0, "E", 0, 10, 1⟩ [5] ⟨0, 7, 0, false⟩ 3
        { emptyStore with voters := [⟨0, 7, 0, false⟩], candidates := [5] }).snd.votes ∧
    (⟨0, 7, 0, true⟩ : Voter) ∈
      (create_vote ⟨0, "E", 0, 10, 1⟩ [5] ⟨0, 7, 0, false⟩ 3
        { emptyStore with voters := [⟨0, 7, 0, false⟩], candidates := [5] }).snd.voters :=
  c4_create_vote_success ⟨0, "E", 0, 10, 1⟩ 5 ⟨0, 7, 0, false⟩ 3
    { emptyStore with voters := [⟨0, 7, 0, false⟩], candidates := [5] }
    (by simp [emptyStore]) rfl (by decide) rfl (by simp)

/-- C5: if a Voter row for (election, user) already exists then
`create_voter` raises the already-signed-up ValidationError and leaves the
store untouched (no second Voter row); and a successful `create_voter`
leaves a matching Voter row behind, so calling it twice raises on the
second call. -/
theorem c5_create_voter_duplicate
    (election : Election) (userId : Nat) (now : Int) (s : Store) :
    (is_voter election userId s ≠ [] →
      create_voter election userId now s = (.error (alreadySignedUpError election), s)) ∧
    (∀ v s2, create_voter election userId now s = (.ok v, s2) →
      is_voter election userId s2 ≠ []) := by
  constructor
  · intro h
    simp [create_voter, List.isEmpty_iff, h]
  · intro v s2 hok
    unfold create_voter at hok
    split at hok
    · exact absurd hok (by simp)
    · rcases hcl : Voter.clean election now
          ⟨s.nextVoterId, userId, election.id, false⟩ with e | u
      · simp only [hcl] at hok
        exact absurd hok (by simp)
      · simp only [hcl] at hok
        simp only [Prod.mk.injEq, Except.ok.injEq] at hok
        rw [← hok.2]
        simp [is_voter, List.filter_append, List.append_eq_nil]

/-- Witness for C5: a second signup for the same (election, user) is
rejected and the store is unchanged. -/
theorem c5_create_voter_duplicate_witness :
    create_voter ⟨0, "E", 10, 20, 1⟩ 7 5 { emptyStore with voters := [⟨0, 7, 0, false⟩] } =
      (.error (alreadySignedUpError ⟨0, "E", 10, 20, 1⟩),
       { emptyStore with voters := [⟨0, 7, 0, false⟩] }) :=
  (c5_create_voter_duplicate ⟨0, "E", 10, 20, 1⟩ 7 5
    { emptyStore with voters := [⟨0, 7, 0, false⟩] }).1 (by decide)

/-- C6: with no existing Voter row for (election, user), if the current
time is strictly after `start_date` then `create_voter` raises the
election-already-started ValidationError. -/
theorem c6_create_voter_after_start
    (election : Election) (userId : Nat) (now : Int) (s : Store)
    (hno : is_voter election userId s = [])
    (hstart : now > election.start_date) :
    (create_voter election userId now s).fst = .error (electionStartedError election) := by
  simp [create_voter, hno, Voter.clean, hstart]

/-- Witness for C6 at a concrete input. -/
theorem c6_create_voter_after_start_witness :
    (create_voter ⟨0, "E", 0, 10, 1⟩ 7 5 emptyStore).fst =
      .error (electionStartedError ⟨0, "E", 0, 10, 1⟩) :=
  c6_create_voter_after_start ⟨0, "E", 0, 10, 1⟩ 7 5 emptyStore (by decide) (by decide)

/-- C1: failure-atomicity exhibit. `create_voter` on an election that has
already started (start 0, now 5) raises the ValidationError, yet the
just-created Voter row is left persisted in the store: `Voter.objects.create`
runs before `full_clean` and the failure path has no compensating delete
(`services.py` lines 106-111), contradicting the no-partial-success claim.
(`create_vote`, by contrast, does delete its partially created Vote row on
failure — see the C2/C3 theorems.) -/
theorem c1_create_voter_not_atomic :
    (create_voter ⟨0, "E", 0, 10, 1⟩ 7 5 emptyStore).fst =
      .error (electionStartedError ⟨0, "E", 0, 10, 1⟩) ∧
    (create_voter ⟨0, "E", 0, 10, 1⟩ 7 5 emptyStore).snd.voters =
      [⟨0, 7, 0, false⟩] :=
  ⟨rfl, rfl⟩

/-- C7: election time classification at any time `T`:
`get_active_elections` returns exactly the elections with
`start_date ≤ T < end_date`, `get_finished_elections` returns exactly those
with `end_date ≤ T`, and the source method `Election.has_finished` answers
true exactly when `end_date ≤ T`. -/
theorem c7_election_time_classification
    (es : List Election) (T : Int) (E : Election) :
    (E ∈ get_active_elections es T ↔ E ∈ es ∧ E.start_date ≤ T ∧ T < E.end_date) ∧
    (E ∈ get_finished_elections es T ↔ E ∈ es ∧ E.end_date ≤ T) ∧
    (E.has_finished T = true ↔ E.end_date ≤ T) := by
  refine ⟨?_, ?_, ?_⟩ <;>
    simp [get_active_elections, get_finished_elections, Election.has_finished,
      List.mem_filter, and_assoc]

/-- C8: for an election whose `end_date` is in the future, `create_vote`
with an empty candidate selection does not raise (the `Vote.clean`
max-count check fails only on overflow, never on an empty selection); the
empty selection is rejected only inside the `vote` request handler, before
`create_vote` is invoked, leaving the store untouched. -/
theorem c8_empty_selection
    (election : Election) (voter : Voter) (now : Int) (s : Store)
    (userId : Nat) (ids : List Nat) :
    (now < election.end_date →
      (create_vote election [] voter now s).fst =
        .ok (createdVote election [] now s, { voter with has_voted := true })) ∧
    (ids = [] →
      s.voters.find? (fun v => v.election_id == election.id && v.user_id == userId) =
        some voter →
      voter.has_voted = false →
      vote election userId ids now s = (.noCandidatesSelected, s)) := by
  constructor
  · intro hend
    have hclean : Vote.clean election (createdVote election [] now s) = .ok () := by
      simp [Vote.clean, createdVote, Vote.chosen_candidate_count, not_le.mpr hend]
    simp only [createdVote] at hclean ⊢
    simp [create_vote, hclean]
  · intro hids hfind hv
    subst hids
    simp [vote, hfind, hv]

/-- Witness for C8 at a concrete input: the service accepts the empty
selection while the handler rejects it before calling the service. -/
theorem c8_empty_selection_witness :
    (create_vote ⟨0, "E", 0, 10, 1⟩ [] ⟨0, 7, 0, false⟩ 3
        { emptyStore with voters := [⟨0, 7, 0, false⟩], candidates := [5] }).fst =
      .ok (createdVote ⟨0, "E", 0, 10, 1⟩ [] 3
             { emptyStore with voters := [⟨0, 7, 0, false⟩], candidates := [5] },
           ⟨0, 7, 0, true⟩) ∧
    vote ⟨0, "E", 0, 10, 1⟩ 7 [] 3
        { emptyStore with voters := [⟨0, 7, 0, false⟩], candidates := [5] } =
      (.noCandidatesSelected,
       { emptyStore with voters := [⟨0, 7, 0, false⟩], candidates := [5] }) :=
  ⟨(c8_empty_selection ⟨0, "E", 0, 10, 1⟩ ⟨0, 7, 0, false⟩ 3
      { emptyStore with voters := [⟨0, 7, 0, false⟩], candidates := [5] } 7 []).1 (by decide),
   (c8_empty_selection ⟨0, "E", 0, 10, 1⟩ ⟨0, 7, 0, false⟩ 3
      { emptyStore with voters := [⟨0, 7, 0, false⟩], candidates := [5] } 7 []).2 rfl
     (by decide) rfl⟩

/-- C9: error precedence inside `Vote.clean`: when the chosen-candidate
count exceeds the election maximum, the too-many-candidates error is raised
regardless of the timestamp (so a vote violating both rules reports only
that error); the after-end-date error is raised only when the count is
within the limit. -/
theorem c9_vote_clean_error_precedence (election : Election) (v : Vote) :
    (election.max_candidates_choice < v.chosen_candidate_count →
      Vote.clean election v = .error (tooManyCandidatesError election)) ∧
    (v.chosen_candidate_count ≤ election.max_candidates_choice →
      v.timestamp ≥ election.end_date →
      Vote.clean election v = .error (electionEndedError election)) := by
  constructor
  · intro h
    simp [Vote.clean, h]
  · intro h1 h2
    simp [Vote.clean, not_lt.mpr h1, h2]

/-- Witness for C9: a vote violating both rules (two candidates against a
maximum of one, timestamp 12 against end date 10) reports the
too-many-candidates error; the same vote trimmed to one candidate reports
the already-ended error. -/
theorem c9_vote_clean_error_precedence_witness :
    Vote.clean ⟨0, "E", 0, 10, 1⟩ ⟨0, 0, [5, 6], 12⟩ =
      .error (tooManyCandidatesError ⟨0, "E", 0, 10, 1⟩) ∧
    Vote.clean ⟨0, "E", 0, 10, 1⟩ ⟨0, 0, [5], 12⟩ =
      .error (electionEndedError ⟨0, "E", 0, 10, 1⟩) :=
  ⟨(c9_vote_clean_error_precedence ⟨0, "E", 0, 10, 1⟩ ⟨0, 0, [5, 6], 12⟩).1 (by decide),
   (c9_vote_clean_error_precedence ⟨0, "E", 0, 10, 1⟩ ⟨0, 0, [5], 12⟩).2 (by decide)
     (by decide)⟩

/-- C10: `create_vote` never inspects the voter `has_voted` flag: for a
voter whose flag is already true, an otherwise valid call still succeeds
and appends a further Vote row to the table; the one-successful-vote rule
is enforced only by the `vote` request handler, which returns early (store
untouched) when the flag is true. -/
theorem c10_create_vote_ignores_has_voted
    (election : Election) (c : List Nat) (voter : Voter) (now : Int) (s : Store)
    (userId : Nat) (ids : List Nat) :
    (voter.has_voted = true →
      (∀ w ∈ s.votes, w.id ≠ s.nextVoteId) →
      c.length ≤ election.max_candidates_choice →
      now < election.end_date →
      (create_vote election c voter now s).fst =
        .ok (createdVote election c now s, { voter with has_voted := true }) ∧
      (create_vote election c voter now s).snd.votes =
        s.votes ++ [createdVote election c now s]) ∧
    (s.voters.find? (fun v => v.election_id == election.id && v.user_id == userId) =
        some voter →
      voter.has_voted = true →
      vote election userId ids now s = (.alreadyVoted, s)) := by
  constructor
  · intro _hv hfresh hcount hend
    have hclean : Vote.clean election (createdVote election c now s) = .ok () := by
      simp [Vote.clean, createdVote, Vote.chosen_candidate_count,
        not_lt.mpr hcount, not_le.mpr hend]
    rw [create_vote_clean_ok election c voter now s hfresh hclean]
    exact ⟨rfl, rfl⟩
  · intro hfind hv
    simp [vote, hfind, hv]

/-- Witness for C10: a voter whose flag is already true gets a second Vote
row persisted by the service, while the handler turns the same state away. -/
theorem c10_create_vote_ignores_has_voted_witness :
    (create_vote ⟨0, "E", 0, 10, 1⟩ [5] ⟨0, 7, 0, true⟩ 4
        { voters := [⟨0, 7, 0, true⟩], votes := [⟨0, 0, [5], 3⟩], candidates := [5],
          nextVoteId := 1, nextVoterId := 1 }).fst =
      .ok (createdVote ⟨0, "E", 0, 10, 1⟩ [5] 4
             { voters := [⟨0, 7, 0, true⟩], votes := [⟨0, 0, [5], 3⟩], candidates := [5],
               nextVoteId := 1, nextVoterId := 1 },
           ⟨0, 7, 0, true⟩) ∧
    (create_vote ⟨0, "E", 0, 10, 1⟩ [5] ⟨0, 7, 0, true⟩ 4
        { voters := [⟨0, 7, 0, true⟩], votes := [⟨0, 0, [5], 3⟩], candidates := [5],
          nextVoteId := 1, nextVoterId := 1 }).snd.votes =
      [⟨0, 0, [5], 3⟩] ++
        [createdVote ⟨0, "E", 0, 10, 1⟩ [5] 4
           { voters := [⟨0, 7, 0, true⟩], votes := [⟨0, 0, [5], 3⟩], candidates := [5],
             nextVoteId := 1, nextVoterId := 1 }] ∧
    vote ⟨0, "E", 0, 10, 1⟩ 7 [5] 4
        { voters := [⟨0, 7, 0, true⟩], votes := [⟨0, 0, [5], 3⟩], candidates := [5],
          nextVoteId := 1, nextVoterId := 1 } =
      (.alreadyVoted,
       { voters := [⟨0, 7, 0, true⟩], votes := [⟨0, 0, [5], 3⟩], candidates := [5],
         nextVoteId := 1, nextVoterId := 1 }) := by
  refine ⟨((c10_create_vote_ignores_has_voted ⟨0, "E", 0, 10, 1⟩ [5] ⟨0, 7, 0, true⟩ 4
      { voters := [⟨0, 7, 0, true⟩], votes := [⟨0, 0, [5], 3⟩], candidates := [5],
        nextVoteId := 1, nextVoterId := 1 } 7 [5]).1 rfl (by decide) (by decide)
      (by decide)).1, ?_, ?_⟩
  · exact ((c10_create_vote_ignores_has_voted ⟨0, "E", 0, 10, 1⟩ [5] ⟨0, 7, 0, true⟩ 4
      { voters := [⟨0, 7, 0, true⟩], votes := [⟨0, 0, [5], 3⟩], candidates := [5],
        nextVoteId := 1, nextVoterId := 1 } 7 [5]).1 rfl (by decide) (by decide)
      (by decide)).2
  · exact (c10_create_vote_ignores_has_voted ⟨0, "E", 0, 10, 1⟩ [5] ⟨0, 7, 0, true⟩ 4
      { voters := [⟨0, 7, 0, true⟩], votes := [⟨0, 0, [5], 3⟩], candidates := [5],
        nextVoteId := 1, nextVoterId := 1 } 7 [5]).2 (by decide) rfl
